import Mathlib

/-!
# Verification of the Gossip container library (`src/gossip.py`)

A shallow embedding of the `Gossip` class: the container data model, the
structured (JSON-dict) codec `to_dict` / `from_dict`, file attachment and
extraction with base64 payloads, the human-readable rendering
`to_human_readable`, and the statistics record `get_stats`.

Conventions of the embedding:
* Python strings are Lean `String`s; byte sequences are `List Nat` together
  with a `∀ b ∈ bs, b < 256` bound where it matters.
* The JSON value universe is the inductive `Json` below (strings, naturals,
  arrays, objects); `json.loads` itself is outside the library, so decoding
  from text is modelled as acting on an `Option Json` (`none` = syntactically
  invalid input, which `Gossip.load` turns into a `FormatError`).
* Python's raised exceptions are modelled by the `Err` type, named after the
  specification's error kinds: `json.JSONDecodeError`→`formatError`,
  `KeyError` on a required field→`schemaError`, extraction's
  `ValueError`→`notFound`, malformed base64→`decodeError`, wrong dynamic
  type→`typeError`.
* Effects (uuid generation, the clock, file contents) are passed as explicit
  arguments (`freshHex`, `nowIso`, raw bytes).
-/

namespace GossipLib

/-- Error kinds raised by the library, named per the specification. -/
inductive Err : Type where
  | formatError : Err
  | schemaError : String → Err
  | notFound : String → Err
  | decodeError : Err
  | typeError : Err
deriving DecidableEq, Repr

/-- JSON-like values, the codomain of Python's `json.loads` as used here.
(`null`, booleans and floats never occur in the documents the library
produces or reads field-wise, so they are omitted.) -/
inductive Json : Type where
  | str : String → Json
  | num : Nat → Json
  | arr : List Json → Json
  | obj : List (String × Json) → Json

/-- Dictionary lookup, `d[k]` / `d.get(k)` on a JSON object.  Returns `none`
when the key is absent (or the value is not an object). -/
def Json.getKey : Json → String → Option Json
  | .obj kvs, k => (kvs.find? (fun kv => kv.1 = k)).map (·.2)
  | _, _ => none

/-- One file attachment: the dict `{"name": …, "type": …, "size": …,
"encoding": …, "data": …}` appended by `add_file` (the Python field `type`
is called `mimeType` here because `type` is a Lean keyword). -/
structure Attach : Type where
  name : String
  mimeType : String
  size : Nat
  encoding : String
  data : String
deriving DecidableEq, Repr

/-- The state of a `Gossip` object: `gossip_id`, `created`, the `metadata`
dict (its `created_by` entry is the constant `"Gossip v1.0"` and is not
stored), the `context` dict, the attachment list and the continuation. -/
structure Gossip : Type where
  gossip_id : String
  created : String
  topic : String
  source_ai : String
  summary : String
  key_points : List String
  open_questions : List String
  files : List Attach
  continuation : String
deriving DecidableEq, Repr

/-- Model of `Gossip.__init__`.  `freshHex` stands for `uuid.uuid4().hex[:12]` and
`nowIso` for `datetime.utcnow().isoformat()`; they are consulted only when
`gossip_id` / `created` are falsy (absent or empty), mirroring Python's
`gossip_id or f"gossip_{…}"` and `created or … + "Z"`.  The optional
parameters model Python's default arguments (`None`, resp. `"unknown"` for
`source_ai`); `x or []` on a list and `x or ""` on a string collapse to the
plain defaults written here.  No validation whatsoever is performed. -/
def gossipInit (freshHex nowIso : String) (topic summary : String)
    (source_ai : Option String) (key_points open_questions : Option (List String))
    (continuation gossip_id created : Option String) : Gossip :=
  { gossip_id := if gossip_id.getD "" = "" then "gossip_" ++ freshHex else gossip_id.getD ""
    created := if created.getD "" = "" then nowIso ++ "Z" else created.getD ""
    topic := topic
    source_ai := source_ai.getD "unknown"
    summary := summary
    key_points := key_points.getD []
    open_questions := open_questions.getD []
    files := []
    continuation := continuation.getD "" }

/-- The JSON dict of one attachment, as stored in `files`. -/
def attachToJson (a : Attach) : Json :=
  .obj [("name", .str a.name), ("type", .str a.mimeType), ("size", .num a.size),
        ("encoding", .str a.encoding), ("data", .str a.data)]

/-- Model of `Gossip.to_dict`: the field-complete structured document. -/
def to_dict (g : Gossip) : Json :=
  .obj [("version", .str "1.0"),
        ("gossip_id", .str g.gossip_id),
        ("created", .str g.created),
        ("metadata", .obj [("topic", .str g.topic),
                           ("source_ai", .str g.source_ai),
                           ("created_by", .str "Gossip v1.0")]),
        ("context", .obj [("summary", .str g.summary),
                          ("key_points", .arr (g.key_points.map .str)),
                          ("open_questions", .arr (g.open_questions.map .str))]),
        ("files", .arr (g.files.map attachToJson)),
        ("continuation", .str g.continuation)]

/-- Required field access `d[k]` expecting a string: `KeyError` when absent
(`schemaError k`), `typeError` when present with another shape. -/
def reqStr (d : Json) (k : String) : Except Err String :=
  match d.getKey k with
  | none => .error (.schemaError k)
  | some (.str s) => .ok s
  | some _ => .error .typeError

/-- Optional `d.get(k, default)` expecting a string. -/
def optStr (d : Json) (k : String) (dflt : String) : Except Err String :=
  match d.getKey k with
  | none => .ok dflt
  | some (.str s) => .ok s
  | some _ => .error .typeError

/-- A JSON value expected to be a string. -/
def asStr : Json → Except Err String
  | .str s => .ok s
  | _ => .error .typeError

/-- Effectful map over a list, failing on the first failing element. -/
def mapExcept (f : α → Except Err β) : List α → Except Err (List β)
  | [] => .ok []
  | x :: xs => do
      let y ← f x
      let ys ← mapExcept f xs
      .ok (y :: ys)

/-- Optional `d.get(k, [])` expecting a list of strings. -/
def optStrList (d : Json) (k : String) : Except Err (List String) :=
  match d.getKey k with
  | none => .ok []
  | some (.arr xs) => mapExcept asStr xs
  | some _ => .error .typeError

/-- Reading one entry of the `files` list back into an attachment record.
(The Python code stores the raw dicts and only reads their fields lazily;
the embedding types them eagerly, which agrees on every well-formed entry.) -/
def attachFromJson (j : Json) : Except Err Attach :=
  match j with
  | .obj _ => do
      let name ← reqStr j "name"
      let mt ← reqStr j "type"
      let size ← match j.getKey "size" with
        | none => Except.error (Err.schemaError "size")
        | some (.num n) => Except.ok n
        | some _ => Except.error Err.typeError
      let enc ← reqStr j "encoding"
      let dat ← reqStr j "data"
      Except.ok { name := name, mimeType := mt, size := size, encoding := enc, data := dat }
  | _ => .error .typeError

/-- Optional `d.get("files", [])`, each entry read as an attachment. -/
def optFiles (d : Json) : Except Err (List Attach) :=
  match d.getKey "files" with
  | none => .ok []
  | some (.arr xs) => mapExcept attachFromJson xs
  | some _ => .error .typeError

/-- Model of `Gossip.from_dict`, following the Python evaluation order:
`data['metadata']['topic']`, `data['context']['summary']`, the optional
`metadata.source_ai` / `context.key_points` / `context.open_questions` /
`continuation`, then `data['gossip_id']`, `data['created']`, construction,
and finally `gossip.files = data.get('files', [])`. -/
def from_dict (freshHex nowIso : String) (d : Json) : Except Err Gossip := do
  let md ← match d.getKey "metadata" with
    | none => Except.error (Err.schemaError "metadata")
    | some m => Except.ok m
  let topic ← reqStr md "topic"
  let ctx ← match d.getKey "context" with
    | none => Except.error (Err.schemaError "context")
    | some c => Except.ok c
  let summary ← reqStr ctx "summary"
  let source_ai ← optStr md "source_ai" "unknown"
  let key_points ← optStrList ctx "key_points"
  let open_questions ← optStrList ctx "open_questions"
  let continuation ← optStr d "continuation" ""
  let gid ← reqStr d "gossip_id"
  let created ← reqStr d "created"
  let g := gossipInit freshHex nowIso topic summary (some source_ai)
      (some key_points) (some open_questions) (some continuation) (some gid) (some created)
  let fs ← optFiles d
  Except.ok { g with files := fs }

/-- The base64 alphabet. -/
def b64alphabet : List Char :=
  "ABCDEFGHIJKLMNOPQRSTUVWXYZabcdefghijklmnopqrstuvwxyz0123456789+/".data

/-- Sextet to base64 character. -/
def b64chr (n : Nat) : Char := b64alphabet.getD n '?'

/-- Base64 character back to its sextet. -/
def b64idx (c : Char) : Option Nat := b64alphabet.findIdx? (· = c)

/-- Model of `base64.b64encode` over byte values. -/
def b64encodeList : List Nat → List Char
  | [] => []
  | [b0] => [b64chr (b0 / 4), b64chr (b0 % 4 * 16), '=', '=']
  | [b0, b1] => [b64chr (b0 / 4), b64chr (b0 % 4 * 16 + b1 / 16), b64chr (b1 % 16 * 4), '=']
  | b0 :: b1 :: b2 :: rest =>
      b64chr (b0 / 4) :: b64chr (b0 % 4 * 16 + b1 / 16) :: b64chr (b1 % 16 * 4 + b2 / 64)
        :: b64chr (b2 % 64) :: b64encodeList rest

/-- Model of `base64.b64encode(bs).decode('utf-8')`. -/
def b64encode (bs : List Nat) : String := ⟨b64encodeList bs⟩

/-- Model of `base64.b64decode` on canonically padded input (the only shape the
library itself produces).  Python's lenient decoder additionally discards
characters outside the alphabet before decoding; no operation of the
library depends on that leniency. -/
def b64decodeList : List Char → Option (List Nat)
  | [] => some []
  | c0 :: c1 :: c2 :: c3 :: rest => do
      let s0 ← b64idx c0
      let s1 ← b64idx c1
      if c2 = '=' then
        if c3 = '=' ∧ rest.isEmpty then pure [s0 * 4 + s1 / 16] else none
      else do
        let s2 ← b64idx c2
        if c3 = '=' then
          if rest.isEmpty then pure [s0 * 4 + s1 / 16, s1 % 16 * 16 + s2 / 4] else none
        else do
          let s3 ← b64idx c3
          let tl ← b64decodeList rest
          pure ((s0 * 4 + s1 / 16) :: (s1 % 16 * 16 + s2 / 4) :: (s2 % 4 * 64 + s3) :: tl)
  | _ => none

/-- Model of `base64.b64decode` on a string. -/
def b64decode (s : String) : Option (List Nat) := b64decodeList s.data

/-! ## Attachment operations -/

/-- Model of `Gossip.add_file`.  The Python method reads the named file's bytes and
guesses the MIME type from the extension; both are external I/O, so the raw
bytes and the MIME string are parameters here, and `name` stands for
`path.name`. -/
def add_file (g : Gossip) (name mimeType : String) (bytes : List Nat) : Gossip :=
  { g with files := g.files ++
      [{ name := name, mimeType := mimeType, size := bytes.length,
         encoding := "base64", data := b64encode bytes }] }

/-- The scanning loop of `Gossip.extract_file`. -/
def extractGo (filename : String) : List Attach → Except Err (List Nat)
  | [] => .error (.notFound filename)
  | f :: rest =>
      if f.name = filename then
        match b64decode f.data with
        | some bs => .ok bs
        | none => .error .decodeError
      else extractGo filename rest

/-- Model of `Gossip.extract_file`: the bytes written to the output path (the file
write itself is external I/O).  Scans `files` in order; the first entry
whose `name` equals `filename` is base64-decoded; raises the
`NotFoundError`-kind `ValueError` when no entry matches. -/
def extract_file (g : Gossip) (filename : String) : Except Err (List Nat) :=
  extractGo filename g.files

attribute [irreducible] from_dict

/-- Containers reachable through the public operations: construction,
`add_file` (with genuine byte values), and `from_dict` (= Decode). -/
inductive Reachable : Gossip → Prop where
  | init : ∀ (fresh now t s : String) (sa : Option String)
      (kp oq : Option (List String)) (c gid cr : Option String),
      Reachable (gossipInit fresh now t s sa kp oq c gid cr)
  | attach : ∀ (g : Gossip) (n mt : String) (bs : List Nat), Reachable g →
      (∀ b ∈ bs, b < 256) → Reachable (add_file g n mt bs)
  | decode : ∀ (fresh now : String) (d : Json) (g : Gossip),
      from_dict fresh now d = .ok g → Reachable g

/-- Containers built by construction and `add_file` alone (no decoding). -/
inductive BuiltByAttach : Gossip → Prop where
  | init : ∀ (fresh now t s : String) (sa : Option String)
      (kp oq : Option (List String)) (c gid cr : Option String),
      BuiltByAttach (gossipInit fresh now t s sa kp oq c gid cr)
  | attach : ∀ (g : Gossip) (n mt : String) (bs : List Nat), BuiltByAttach g →
      (∀ b ∈ bs, b < 256) → BuiltByAttach (add_file g n mt bs)

set_option allowUnsafeReducibility true in
attribute [semireducible] from_dict

/-- The attachment size invariant of the specification: every payload
decodes, and `size` is the decoded byte length. -/
def sizeInv (g : Gossip) : Prop :=
  ∀ f ∈ g.files, ∃ bs, b64decode f.data = some bs ∧ f.size = bs.length

/-! ## `datetime.fromisoformat` / `strftime`

A model of CPython's `datetime.fromisoformat` on the extended-format strings
relevant to this library: `YYYY-MM-DD[<sep>HH[:MM[:SS[.digits]]][±HH:MM[:SS[.digits]]]]`,
where (as CPython documents) the date/time separator may be *any* single
character.  Field ranges are validated (month, day against the Gregorian
calendar with leap years, hour < 24, minute/second < 60, offset hour < 24).
The value of a parsed offset does not shift the carried wall-clock fields,
exactly as in Python (an aware datetime's `strftime` prints the stored
fields). -/

/-- The wall-clock fields of a parsed datetime. -/
structure PyDateTime : Type where
  year : Nat
  month : Nat
  day : Nat
  hour : Nat
  minute : Nat
  second : Nat
deriving DecidableEq, Repr

/-- Two decimal digits, returning the value and the rest. -/
def parse2 : List Char → Option (Nat × List Char)
  | c0 :: c1 :: rest =>
      if c0.isDigit && c1.isDigit then
        some ((c0.toNat - 48) * 10 + (c1.toNat - 48), rest)
      else none
  | _ => none

/-- Four decimal digits, returning the value and the rest. -/
def parse4 : List Char → Option (Nat × List Char)
  | c0 :: c1 :: c2 :: c3 :: rest =>
      if c0.isDigit && c1.isDigit && c2.isDigit && c3.isDigit then
        some ((c0.toNat - 48) * 1000 + (c1.toNat - 48) * 100 +
              (c2.toNat - 48) * 10 + (c3.toNat - 48), rest)
      else none
  | _ => none

/-- Length of a month in the proleptic Gregorian calendar. -/
def daysInMonth (y m : Nat) : Nat :=
  if m = 2 then (if (y % 4 = 0 ∧ y % 100 ≠ 0) ∨ y % 400 = 0 then 29 else 28)
  else if m = 4 ∨ m = 6 ∨ m = 9 ∨ m = 11 then 30 else 31

/-- One-or-more fractional-second digits; returns the rest. -/
def parseFracTail (cs : List Char) : Option (List Char) :=
  let ds := cs.takeWhile (·.isDigit)
  if ds.isEmpty then none else some (cs.dropWhile (·.isDigit))

/-- A UTC-offset tail `HH:MM[:SS[.digits]]`, consumed entirely. -/
def parseOffTail (cs : List Char) : Bool :=
  match parse2 cs with
  | none => false
  | some (h, r1) =>
      decide (h < 24) &&
      match r1 with
      | ':' :: r2 =>
          match parse2 r2 with
          | none => false
          | some (mi, r3) =>
              decide (mi < 60) &&
              match r3 with
              | [] => true
              | ':' :: r4 =>
                  match parse2 r4 with
                  | none => false
                  | some (se, r5) =>
                      decide (se < 60) &&
                      match r5 with
                      | [] => true
                      | '.' :: r6 =>
                          match parseFracTail r6 with
                          | some [] => true
                          | _ => false
                      | _ => false
              | _ => false
      | _ => false

/-- End of string, or a `±HH:MM[:SS[.digits]]` offset consuming the rest. -/
def parseOffOrEnd : List Char → Bool
  | [] => true
  | c :: r => (c = '+' || c = '-') && parseOffTail r

/-- The time-of-day part `HH[:MM[:SS[.digits]]]` followed by an optional
offset, consumed entirely. -/
def parseTimeFull (cs : List Char) : Option (Nat × Nat × Nat) := do
  let (h, r1) ← parse2 cs
  if h ≥ 24 then none else
  match r1 with
  | ':' :: r2 => do
      let (mi, r3) ← parse2 r2
      if mi ≥ 60 then none else
      match r3 with
      | ':' :: r4 => do
          let (se, r5) ← parse2 r4
          if se ≥ 60 then none else
          match r5 with
          | '.' :: r6 =>
              match parseFracTail r6 with
              | none => none
              | some r7 => if parseOffOrEnd r7 then some (h, mi, se) else none
          | r => if parseOffOrEnd r then some (h, mi, se) else none
      | r => if parseOffOrEnd r then some (h, mi, 0) else none
  | r => if parseOffOrEnd r then some (h, 0, 0) else none

/-- Model of `datetime.fromisoformat`. -/
def fromisoformat (s : String) : Option PyDateTime := do
  let (y, r1) ← parse4 s.data
  match r1 with
  | '-' :: r2 => do
      let (mo, r3) ← parse2 r2
      match r3 with
      | '-' :: r4 => do
          let (d, r5) ← parse2 r4
          if 1 ≤ y ∧ 1 ≤ mo ∧ mo ≤ 12 ∧ 1 ≤ d ∧ d ≤ daysInMonth y mo then
            match r5 with
            | [] => some ⟨y, mo, d, 0, 0, 0⟩
            | _sep :: tcs => do
                let (h, mi, se) ← parseTimeFull tcs
                some ⟨y, mo, d, h, mi, se⟩
          else none
      | _ => none
  | _ => none

/-- Zero-pad to two digits. -/
def pad2 (n : Nat) : String := if n < 10 then "0" ++ toString n else toString n

/-- Zero-pad to four digits (years in this development are four-digit). -/
def pad4 (n : Nat) : String :=
  if n < 10 then "000" ++ toString n
  else if n < 100 then "00" ++ toString n
  else if n < 1000 then "0" ++ toString n
  else toString n

/-- Model of `strftime('%Y-%m-%d %H:%M:%S UTC')`. -/
def strftimeCreated (dt : PyDateTime) : String :=
  pad4 dt.year ++ "-" ++ pad2 dt.month ++ "-" ++ pad2 dt.day ++ " " ++
    pad2 dt.hour ++ ":" ++ pad2 dt.minute ++ ":" ++ pad2 dt.second ++ " UTC"

/-- Model of `str.replace('Z', '+00:00')` on the character list: replaces **every**
occurrence. -/
def replaceZList : List Char → List Char
  | [] => []
  | c :: rest =>
      if c = 'Z' then '+' :: '0' :: '0' :: ':' :: '0' :: '0' :: replaceZList rest
      else c :: replaceZList rest

/-- Model of `created.replace('Z', '+00:00')`. -/
def replaceZ (s : String) : String := ⟨replaceZList s.data⟩

/-- The string `"‚ïê" * 63`, the separator rule (the source file stores the
mojibake characters U+201A U+00EF U+00EA literally). -/
def sepRule : String := String.join (List.replicate 63 "‚ïê")

/-- The string `"‚Ä¢ "`, the bullet prefix (mojibake characters U+201A U+00C4 U+00A2
and a space, as stored in the source file). -/
def bulletMark : String := "‚Ä¢ "

/-- Python `point.lstrip('- ')`: remove **all** leading characters that are
`'-'` or `' '`. -/
def pyLstripDashSpace (s : String) : String :=
  ⟨s.data.dropWhile (fun c => c = '-' || c = ' ')⟩

/-- One rendered bullet for a key point or open question. -/
def bulletLine (p : String) : String := bulletMark ++ pyLstripDashSpace p

/-- Round `num / den` to the nearest integer, ties to even — what `%.1f`
does to the (here exactly representable) value `size/1024`. -/
def roundHalfEven (num den : Nat) : Nat :=
  let q := num / den
  let r := num % den
  if 2 * r > den then q + 1
  else if 2 * r < den then q
  else if q % 2 = 0 then q else q + 1

/-- Model of `f"{size/1024:.1f}"`: KB with one decimal place (exact for
`size < 2^53`, where float division by 1024 is exact). -/
def fmtKB (size : Nat) : String :=
  let t := roundHalfEven (size * 10) 1024
  toString (t / 10) ++ "." ++ toString (t % 10)

/-- One line of the ATTACHED FILES section. -/
def fileLine (f : Attach) : String :=
  bulletMark ++ f.name ++ " (" ++ f.mimeType ++ ", " ++ fmtKB f.size ++ " KB)"

/-- The fixed leading lines, through the KEY POINTS heading.  `createdStr`
is the `strftime` rendering of the parsed `created` timestamp. -/
def headerLines (g : Gossip) (createdStr : String) : List String :=
  ["# GOSSIP [ID: " ++ g.gossip_id ++ "]",
   sepRule,
   "AI Conversation Context Transfer File",
   "Created by Gossip - Universal AI Integration Layer",
   sepRule,
   "",
   "**Topic:** " ++ g.topic,
   "**Source AI:** " ++ g.source_ai,
   "**Created:** " ++ createdStr,
   "",
   sepRule,
   "## CONVERSATION CONTEXT",
   "",
   g.summary,
   "",
   sepRule,
   "## KEY POINTS & DECISIONS",
   ""]

/-- The lines between the key points and the open questions. -/
def questionsHeader : List String :=
  ["", sepRule, "## OPEN QUESTIONS / NEXT STEPS", ""]

/-- The ATTACHED FILES section, present only when `fs` is non-empty. -/
def filesBlock (fs : List Attach) : List String :=
  if fs.isEmpty then []
  else ["", sepRule, "## ATTACHED FILES", ""] ++ fs.map fileLine ++
       ["", "[Files are base64-encoded in the full Gossip JSON format]"]

/-- The CONTINUE FROM HERE section, present only when `c` is non-empty. -/
def continuationBlock (c : String) : List String :=
  if c = "" then [] else ["", sepRule, "## CONTINUE FROM HERE:", "", c]

/-- The always-present closing instructional block. -/
def closingLines (source_ai : String) : List String :=
  ["", sepRule, "## INSTRUCTIONS FOR AI SYSTEMS:", "",
   "This is a Gossip file - a universal context transfer format for AI systems.",
   "Please read this entire context carefully. This represents a conversation",
   "from another AI system (" ++ source_ai ++ ") that should continue",
   "seamlessly in your system.",
   "",
   "Treat this as if you've been having this conversation yourself. Reference",
   "the key points and decisions made, acknowledge the open questions, and pick",
   "up from the 'Continue from here' section.",
   "",
   "If files are referenced but not accessible in your system, acknowledge them",
   "and proceed based on the context provided.",
   "",
   "Gossip enables AI interoperability. Honor the context and maintain continuity.",
   sepRule]

/-- The line list built by `Gossip.to_human_readable`; `none` when
`datetime.fromisoformat(self.created.replace('Z', '+00:00'))` raises. -/
def to_human_lines (g : Gossip) : Option (List String) :=
  (fromisoformat (replaceZ g.created)).map (fun dt =>
    headerLines g (strftimeCreated dt) ++
    g.key_points.map bulletLine ++
    questionsHeader ++
    g.open_questions.map bulletLine ++
    filesBlock g.files ++
    continuationBlock g.continuation ++
    closingLines g.source_ai)

/-- Model of `Gossip.to_human_readable`: `"\n".join(lines)`. -/
def to_human_readable (g : Gossip) : Option String :=
  (to_human_lines g).map (fun ls => String.intercalate "\n" ls)

/-! ## `json.dumps(..., indent=None)` and `Gossip.get_stats` -/

/-- Lower-case hexadecimal digit. -/
def hexDigit (n : Nat) : Char :=
  if n < 10 then Char.ofNat (48 + n) else Char.ofNat (87 + n)

/-- A `\uXXXX` escape. -/
def u4 (n : Nat) : List Char :=
  ['\\', 'u', hexDigit (n / 4096 % 16), hexDigit (n / 256 % 16),
   hexDigit (n / 16 % 16), hexDigit (n % 16)]

/-- Model of `json.dumps` escaping of one character with the default
`ensure_ascii=True`: everything outside `0x20..0x7e` (and `"` and `\`)
is escaped, astral characters as a surrogate pair. -/
def escapeChar (c : Char) : List Char :=
  if c = '"' then ['\\', '"']
  else if c = '\\' then ['\\', '\\']
  else if c = '\n' then ['\\', 'n']
  else if c = '\t' then ['\\', 't']
  else if c = '\r' then ['\\', 'r']
  else if c.toNat = 8 then ['\\', 'b']
  else if c.toNat = 12 then ['\\', 'f']
  else if c.toNat < 32 then u4 c.toNat
  else if c.toNat < 127 then [c]
  else if c.toNat < 65536 then u4 c.toNat
  else u4 (55296 + (c.toNat - 65536) / 1024) ++ u4 (56320 + (c.toNat - 65536) % 1024)

/-- A JSON string literal. -/
def jsonEscape (s : String) : List Char :=
  '"' :: (s.data.map escapeChar).flatten ++ ['"']

/-- Decimal digits, most significant first (fuel-based for structural
recursion; `fuel = n + 1` always suffices). -/
def natCharsAux : Nat → Nat → List Char
  | 0, _ => []
  | fuel + 1, n =>
      if n < 10 then [Char.ofNat (48 + n)]
      else natCharsAux fuel (n / 10) ++ [Char.ofNat (48 + n % 10)]

/-- The decimal rendering of an integer, as `json.dumps` writes it. -/
def natChars (n : Nat) : List Char := natCharsAux (n + 1) n

mutual

/-- Model of `json.dumps(v, indent=None)`: compact serialization with the default
`", "` / `": "` separators and insertion-ordered keys. -/
def jsonSer : Json → List Char
  | .str s => jsonEscape s
  | .num n => natChars n
  | .arr xs => '[' :: jsonSerArr xs ++ [']']
  | .obj kvs => Char.ofNat 123 :: jsonSerObj kvs ++ [Char.ofNat 125]

/-- Array elements joined by `", "`. -/
def jsonSerArr : List Json → List Char
  | [] => []
  | [x] => jsonSer x
  | x :: y :: rest => jsonSer x ++ ',' :: ' ' :: jsonSerArr (y :: rest)

/-- Object entries `"key": value` joined by `", "`. -/
def jsonSerObj : List (String × Json) → List Char
  | [] => []
  | [(k, v)] => jsonEscape k ++ ':' :: ' ' :: jsonSer v
  | (k, v) :: y :: rest =>
      jsonEscape k ++ ':' :: ' ' :: jsonSer v ++ ',' :: ' ' :: jsonSerObj (y :: rest)

end

/-- Model of `Gossip.to_json(pretty=False)`. -/
def to_json_compact (g : Gossip) : String := ⟨jsonSer (to_dict g)⟩

/-- The statistics record of `Gossip.get_stats`.  The Python dict holds
floats for the `*_kb` entries and a formatted percentage string for
`compression_ratio`; they are modelled as exact rationals (float division
by 1024 is exact below `2^53`, and the ratio is kept unformatted), with
`none` standing for the `"N/A"` string. -/
structure Stats : Type where
  gossip_id : String
  topic : String
  created : String
  source_ai : String
  key_points_count : Nat
  open_questions_count : Nat
  files_count : Nat
  total_file_size_kb : ℚ
  json_size_kb : ℚ
  human_readable_size_kb : ℚ
  compression_ratio : Option ℚ
deriving DecidableEq, Repr

/-- Model of `Gossip.get_stats`; `none` when `to_human_readable` raises on an
unparseable `created`.  `len` on a Python `str` counts characters, which
is what `String.length` does here. -/
def get_stats (g : Gossip) : Option Stats :=
  (to_human_readable g).map (fun human =>
    let json_size : Nat := (to_json_compact g).length
    let human_size : Nat := human.length
    { gossip_id := g.gossip_id
      topic := g.topic
      created := g.created
      source_ai := g.source_ai
      key_points_count := g.key_points.length
      open_questions_count := g.open_questions.length
      files_count := g.files.length
      total_file_size_kb := ((g.files.map (·.size)).sum : ℚ) / 1024
      json_size_kb := (json_size : ℚ) / 1024
      human_readable_size_kb := (human_size : ℚ) / 1024
      compression_ratio :=
        if json_size > 0 then some ((human_size : ℚ) * 100 / (json_size : ℚ)) else none })

/-! ## C9: the statistics record -/

/-- All characters of the list are ASCII (printable range boundary 0x7F
excluded, matching what `json.dumps(ensure_ascii=True)` emits). -/
def asciiList (l : List Char) : Prop := ∀ c ∈ l, c.toNat < 127

lemma ascii_nil : asciiList [] := fun c hc => absurd hc (List.not_mem_nil c)

lemma ascii_cons {x : Char} {l : List Char} (hx : x.toNat < 127) (hl : asciiList l) :
    asciiList (x :: l) := by
  intro c hc
  rcases List.mem_cons.mp hc with rfl | hc
  · exact hx
  · exact hl c hc

lemma ascii_append {a b : List Char} (ha : asciiList a) (hb : asciiList b) :
    asciiList (a ++ b) := by
  intro c hc
  rcases List.mem_append.mp hc with hc | hc
  · exact ha c hc
  · exact hb c hc

lemma hexDigit_ascii : ∀ n, n < 16 → (hexDigit n).toNat < 127 := by decide

lemma u4_ascii (n : Nat) : asciiList (u4 n) := by
  intro c hc
  simp only [u4, List.mem_cons, List.not_mem_nil, or_false] at hc
  rcases hc with rfl | rfl | rfl | rfl | rfl | rfl
  · decide
  · decide
  · exact hexDigit_ascii _ (Nat.mod_lt _ (by omega))
  · exact hexDigit_ascii _ (Nat.mod_lt _ (by omega))
  · exact hexDigit_ascii _ (Nat.mod_lt _ (by omega))
  · exact hexDigit_ascii _ (Nat.mod_lt _ (by omega))

set_option maxHeartbeats 2000000 in
lemma escapeChar_ascii (c : Char) : asciiList (escapeChar c) := by
  unfold escapeChar
  split_ifs with h1 h2 h3 h4 h5 h6 h7 h8 h9 h10
  · exact ascii_cons (by decide) (ascii_cons (by decide) ascii_nil)
  · exact ascii_cons (by decide) (ascii_cons (by decide) ascii_nil)
  · exact ascii_cons (by decide) (ascii_cons (by decide) ascii_nil)
  · exact ascii_cons (by decide) (ascii_cons (by decide) ascii_nil)
  · exact ascii_cons (by decide) (ascii_cons (by decide) ascii_nil)
  · exact ascii_cons (by decide) (ascii_cons (by decide) ascii_nil)
  · exact ascii_cons (by decide) (ascii_cons (by decide) ascii_nil)
  · exact u4_ascii _
  · exact ascii_cons h9 ascii_nil
  · exact u4_ascii _
  · exact ascii_append (u4_ascii _) (u4_ascii _)

/-- The escaped body of a JSON string literal is ASCII. -/
lemma flatten_escape_ascii (l : List Char) : asciiList (l.map escapeChar).flatten := by
  intro c hc
  obtain ⟨sub, hsub, hcsub⟩ := List.mem_flatten.mp hc
  obtain ⟨ch, _, rfl⟩ := List.mem_map.mp hsub
  exact escapeChar_ascii ch c hcsub

lemma jsonEscape_ascii (s : String) : asciiList (jsonEscape s) := by
  unfold jsonEscape
  exact ascii_cons (by decide)
    (ascii_append (flatten_escape_ascii s.data) (ascii_cons (by decide) ascii_nil))

lemma digitChar_ascii : ∀ k, k < 10 → (Char.ofNat (48 + k)).toNat < 127 := by decide

lemma natCharsAux_ascii : ∀ fuel n, asciiList (natCharsAux fuel n) := by
  intro fuel
  induction fuel with
  | zero => intro n; exact ascii_nil
  | succ f ih =>
      intro n
      unfold natCharsAux
      by_cases h : n < 10
      · rw [if_pos h]
        intro c hc; simp at hc; subst hc
        exact digitChar_ascii n h
      · rw [if_neg h]
        refine ascii_append (ih _) ?_
        intro c hc; simp at hc; subst hc
        exact digitChar_ascii _ (Nat.mod_lt _ (by omega))

lemma natChars_ascii (n : Nat) : asciiList (natChars n) := natCharsAux_ascii _ _

/-- The serialization of one attachment dict is ASCII. -/
lemma attachSer_ascii (a : Attach) : asciiList (jsonSer (attachToJson a)) := by
  simp only [attachToJson, jsonSer, jsonSerObj]
  repeat'
    first
    | exact ascii_nil
    | exact jsonEscape_ascii _
    | exact flatten_escape_ascii _
    | exact natChars_ascii _
    | apply ascii_cons (by decide)
    | apply ascii_append

/-- Array of strings: ASCII. -/
lemma serArr_str_ascii (l : List String) : asciiList (jsonSerArr (l.map Json.str)) := by
  induction l with
  | nil => exact ascii_nil
  | cons x xs ih =>
      cases xs with
      | nil => simpa [jsonSerArr, jsonSer] using jsonEscape_ascii x
      | cons y ys =>
          simp only [List.map_cons, jsonSerArr, jsonSer]
          refine ascii_append (jsonEscape_ascii x)
            (ascii_cons (by decide) (ascii_cons (by decide) ?_))
          simpa [List.map_cons] using ih

/-- Array of attachment dicts: ASCII. -/
lemma serArr_attach_ascii (l : List Attach) :
    asciiList (jsonSerArr (l.map attachToJson)) := by
  induction l with
  | nil => exact ascii_nil
  | cons x xs ih =>
      cases xs with
      | nil => simpa [jsonSerArr] using attachSer_ascii x
      | cons y ys =>
          simp only [List.map_cons, jsonSerArr]
          refine ascii_append ?_ (ascii_cons (by decide) (ascii_cons (by decide) ?_))
          · simpa using attachSer_ascii x
          · simpa [List.map_cons] using ih

/-- The compact structured encoding is pure ASCII (`json.dumps` escapes
everything non-ASCII by default), so its character count *is* its UTF-8
byte count. -/
lemma to_json_compact_ascii (g : Gossip) : asciiList (to_json_compact g).data := by
  show asciiList (jsonSer (to_dict g))
  simp only [to_dict, jsonSer, jsonSerObj, jsonSerArr]
  repeat'
    first
    | exact ascii_nil
    | exact jsonEscape_ascii _
    | exact flatten_escape_ascii _
    | exact natChars_ascii _
    | exact serArr_str_ascii _
    | exact serArr_attach_ascii _
    | apply ascii_cons (by decide)
    | apply ascii_append

lemma utf8Size_ascii (c : Char) (h : c.toNat < 127) : c.utf8Size = 1 := by
  unfold Char.utf8Size
  have hle : c.val ≤ (0x7F : UInt32) := by
    rw [UInt32.le_def]
    show c.val.val ≤ _
    rw [Fin.le_def]
    exact Nat.le_of_lt_succ (Nat.lt_succ_of_lt h)
  simp [hle]

/-- On an ASCII string the UTF-8 byte length equals the character count. -/
lemma utf8ByteSize_eq_length_of_ascii (s : String) (h : asciiList s.data) :
    s.utf8ByteSize = s.length := by
  obtain ⟨l⟩ := s
  rw [String.utf8ByteSize_mk]
  show String.utf8Len l = l.length
  induction l with
  | nil => rfl
  | cons c t ih =>
      have hc : c.toNat < 127 := h c (by simp)
      have ht : asciiList t := fun x hx => h x (by simp [hx])
      rw [String.utf8Len_cons, utf8Size_ascii c hc, ih ht]
      simp [Nat.add_comm]

/-- C9 (amended): for every Container whose `created` renders, `get_stats`
returns the record with its id, topic, creation timestamp and source
system, the three counts, the attachment total in **KB** (the byte sum
divided by 1024), the structured and human-readable lengths in KB — both
counted in characters (`len` on a `str`), which for the ASCII structured
form coincides with bytes — and the human/structured ratio as a percentage,
`none` (`"N/A"`) when the structured length is zero. -/
theorem get_stats_spec (g : Gossip) (h : String)
    (hh : to_human_readable g = some h) :
    get_stats g = some
      { gossip_id := g.gossip_id, topic := g.topic, created := g.created,
        source_ai := g.source_ai,
        key_points_count := g.key_points.length,
        open_questions_count := g.open_questions.length,
        files_count := g.files.length,
        total_file_size_kb := ((g.files.map (·.size)).sum : ℚ) / 1024,
        json_size_kb := ((to_json_compact g).length : ℚ) / 1024,
        human_readable_size_kb := (h.length : ℚ) / 1024,
        compression_ratio :=
          if (to_json_compact g).length > 0 then
            some ((h.length : ℚ) * 100 / ((to_json_compact g).length : ℚ))
          else none } ∧
    (to_json_compact g).utf8ByteSize = (to_json_compact g).length := by
  constructor
  · simp [get_stats, hh]
  · exact utf8ByteSize_eq_length_of_ascii _ (to_json_compact_ascii g)

/-- A Container with one 512-byte attachment, for the C9 record. -/
def gStats : Gossip :=
  { gossip_id := "g1", created := "2024-01-02T03:04:05Z", topic := "T",
    source_ai := "unknown", summary := "S", key_points := [], open_questions := [],
    files := [{ name := "a", mimeType := "t", size := 512,
                encoding := "base64", data := "QQ==" }],
    continuation := "" }

/-- Every character occupies at least one UTF-8 byte. -/
lemma length_le_utf8Len (l : List Char) : l.length ≤ String.utf8Len l := by
  induction l with
  | nil => simp [String.utf8Len_nil]
  | cons a t ih =>
      rw [String.utf8Len_cons, List.length_cons]
      have := Char.utf8Size_pos a
      omega

/-- A multi-byte character makes the UTF-8 byte count exceed the character
count. -/
lemma length_lt_utf8Len {c : Char} {l : List Char} (hc : c ∈ l)
    (h1 : 1 < c.utf8Size) : l.length < String.utf8Len l := by
  induction l with
  | nil => cases hc
  | cons a t ih =>
      rw [String.utf8Len_cons, List.length_cons]
      rcases List.mem_cons.mp hc with rfl | hmem
      · have := length_le_utf8Len t
        omega
      · have := ih hmem
        have := Char.utf8Size_pos a
        omega

/-- String-level version of `length_lt_utf8Len`. -/
lemma length_lt_utf8ByteSize {c : Char} {s : String} (hc : c ∈ s.data)
    (h1 : 1 < c.utf8Size) : s.length < s.utf8ByteSize := by
  obtain ⟨l⟩ := s
  rw [String.utf8ByteSize_mk]
  exact length_lt_utf8Len hc h1

set_option maxRecDepth 8000 in
/-- C9 counterexample: the stats record does **not** contain the sum of the
attachments' `sizeBytes` (512) — it contains that sum divided by 1024
(`0.5`, the KB figure) — and its human-readable length field counts
characters, not bytes: the rendering contains three-byte characters (the
separator rules), so its UTF-8 byte length strictly exceeds the character
count the record is built from. -/
theorem get_stats_kb_not_bytes :
    (get_stats gStats).map Stats.total_file_size_kb = some ((1 : ℚ) / 2) ∧
    ((1 : ℚ) / 2) ≠ 512 ∧
    ((to_human_readable gStats).getD "").length <
      ((to_human_readable gStats).getD "").utf8ByteSize ∧
    (get_stats gStats).map Stats.human_readable_size_kb =
      some (((((to_human_readable gStats).getD "").length) : ℚ) / 1024) := by
  have hs : to_human_readable gStats = some ((to_human_readable gStats).getD "") := rfl
  refine ⟨?_, by norm_num, ?_, ?_⟩
  · show ((to_human_readable gStats).map _).map _ = _
    rw [hs]
    simp only [Option.map_some', Option.some.injEq]
    show ((List.map (fun f => f.size) gStats.files).sum : ℚ) / 1024 = 1 / 2
    norm_num [gStats]
  · have hmem : '\u201A' ∈ ((to_human_readable gStats).getD "").data := by decide
    have h1 : (1 : Nat) < Char.utf8Size '\u201A' := by decide
    exact length_lt_utf8ByteSize hmem h1
  · show ((to_human_readable gStats).map _).map _ = _
    rw [hs]
    simp only [Option.map_some', Option.getD_some]

/-- C9 witness: the amended record equation evaluated on `gStats`. -/
theorem get_stats_spec_witness :
    get_stats gStats = some
      { gossip_id := gStats.gossip_id, topic := gStats.topic,
        created := gStats.created, source_ai := gStats.source_ai,
        key_points_count := gStats.key_points.length,
        open_questions_count := gStats.open_questions.length,
        files_count := gStats.files.length,
        total_file_size_kb := ((gStats.files.map (·.size)).sum : ℚ) / 1024,
        json_size_kb := ((to_json_compact gStats).length : ℚ) / 1024,
        human_readable_size_kb :=
          (((to_human_readable gStats).getD "").length : ℚ) / 1024,
        compression_ratio :=
          if (to_json_compact gStats).length > 0 then
            some ((((to_human_readable gStats).getD "").length : ℚ) * 100 /
              ((to_json_compact gStats).length : ℚ))
          else none } ∧
    (to_json_compact gStats).utf8ByteSize = (to_json_compact gStats).length :=
  get_stats_spec gStats ((to_human_readable gStats).getD "") rfl

/-! ## Lemmas about base64 -/

theorem b64idx_b64chr : ∀ s : Nat, s < 64 → b64idx (b64chr s) = some s := by decide

theorem b64chr_ne_pad : ∀ s : Nat, s < 64 → b64chr s ≠ '=' := by decide

/-- Decoding inverts encoding on genuine byte sequences. -/
theorem b64decodeList_encodeList (bs : List Nat) (h : ∀ b ∈ bs, b < 256) :
    b64decodeList (b64encodeList bs) = some bs := by
  induction bs using b64encodeList.induct with
  | case1 => rfl
  | case2 b0 =>
      have h0 : b0 < 256 := h b0 (by simp)
      have e1 := b64idx_b64chr (b0 / 4) (by omega)
      have e2 := b64idx_b64chr (b0 % 4 * 16) (by omega)
      simp only [b64encodeList, b64decodeList]
      simp [e1, e2]
      omega
  | case3 b0 b1 =>
      have h0 : b0 < 256 := h b0 (by simp)
      have h1 : b1 < 256 := h b1 (by simp)
      have e1 := b64idx_b64chr (b0 / 4) (by omega)
      have e2 := b64idx_b64chr (b0 % 4 * 16 + b1 / 16) (by omega)
      have e3 := b64idx_b64chr (b1 % 16 * 4) (by omega)
      have n3 : b64chr (b1 % 16 * 4) ≠ '=' := b64chr_ne_pad _ (by omega)
      simp only [b64encodeList, b64decodeList]
      simp [e1, e2, e3, n3]
      omega
  | case4 b0 b1 b2 rest ih =>
      have h0 : b0 < 256 := h b0 (by simp)
      have h1 : b1 < 256 := h b1 (by simp)
      have h2 : b2 < 256 := h b2 (by simp)
      have hrest : ∀ b ∈ rest, b < 256 := fun b hb => h b (by simp [hb])
      have e1 := b64idx_b64chr (b0 / 4) (by omega)
      have e2 := b64idx_b64chr (b0 % 4 * 16 + b1 / 16) (by omega)
      have e3 := b64idx_b64chr (b1 % 16 * 4 + b2 / 64) (by omega)
      have e4 := b64idx_b64chr (b2 % 64) (by omega)
      have n3 : b64chr (b1 % 16 * 4 + b2 / 64) ≠ '=' := b64chr_ne_pad _ (by omega)
      have n4 : b64chr (b2 % 64) ≠ '=' := b64chr_ne_pad _ (by omega)
      simp only [b64encodeList, b64decodeList]
      simp [e1, e2, e3, e4, n3, n4, ih hrest]
      omega

/-- String-level base64 round trip. -/
theorem b64decode_b64encode (bs : List Nat) (h : ∀ b ∈ bs, b < 256) :
    b64decode (b64encode bs) = some bs :=
  b64decodeList_encodeList bs h

/-! ## C1: round trip of the structured codec -/

lemma exc_ok_bind {α β : Type} (a : α) (f : α → Except Err β) :
    (Except.ok a : Except Err α) >>= f = f a := rfl

lemma attachFromJson_attachToJson (a : Attach) : attachFromJson (attachToJson a) = .ok a := by
  cases a; rfl

lemma mapExcept_asStr_map (l : List String) : mapExcept asStr (l.map Json.str) = Except.ok l := by
  induction l with
  | nil => rfl
  | cons x xs ih => simp [mapExcept, asStr, ih, exc_ok_bind]

lemma mapExcept_attach_map (l : List Attach) :
    mapExcept attachFromJson (l.map attachToJson) = Except.ok l := by
  induction l with
  | nil => rfl
  | cons x xs ih => simp [mapExcept, attachFromJson_attachToJson, ih, exc_ok_bind]

/-- C1: decoding the structured document produced by encoding reproduces the
Container field-for-field (id, creation timestamp, topic, source system,
summary, both string sequences, the attachment sequence verbatim, and the
continuation).  Validity asks `gossip_id` and `created` to be non-empty:
Python's `x or default` in `__init__` would replace an empty id or timestamp
by a fresh one, and no reachable Container carries an empty value in either
field. -/
theorem from_dict_to_dict (fresh now : String) (g : Gossip)
    (hid : g.gossip_id ≠ "") (hcr : g.created ≠ "") :
    from_dict fresh now (to_dict g) = .ok g := by
  obtain ⟨gid, cr, t, sa, su, kp, oq, fs, co⟩ := g
  simp only [ne_eq] at hid hcr
  simp [to_dict, from_dict, Json.getKey, List.find?, reqStr, optStr, optFiles, optStrList,
    gossipInit, mapExcept_asStr_map, mapExcept_attach_map, exc_ok_bind, hid, hcr]

/-- A concrete Container exercising every field, for the C1 witness. -/
def gRoundTrip : Gossip :=
  { gossip_id := "gossip_abc123def456", created := "2024-01-02T03:04:05.123456Z",
    topic := "Topic", source_ai := "claude", summary := "Summary",
    key_points := ["- a", "b"], open_questions := ["q1"],
    files := [{ name := "x.txt", mimeType := "text/plain", size := 3,
                encoding := "base64", data := "QUJD" }],
    continuation := "go on" }

/-- C1 witness: the round trip evaluated on a concrete Container. -/
theorem from_dict_to_dict_witness :
    gRoundTrip.gossip_id ≠ "" ∧ gRoundTrip.created ≠ "" ∧
    from_dict "fresh" "now" (to_dict gRoundTrip) = .ok gRoundTrip :=
  ⟨by decide, by decide, from_dict_to_dict "fresh" "now" gRoundTrip (by decide) (by decide)⟩

/-! ## C3: the attachment size invariant -/

/-- A structured document whose single `files` entry has `size` 999 but an
empty payload; `from_dict` copies it without any consistency check. -/
def dSizeMismatch : Json :=
  .obj [("gossip_id", .str "g1"), ("created", .str "2024-01-02T03:04:05Z"),
        ("metadata", .obj [("topic", .str "T")]),
        ("context", .obj [("summary", .str "S")]),
        ("files", .arr [.obj [("name", .str "a"), ("type", .str "t"),
                              ("size", .num 999), ("encoding", .str "base64"),
                              ("data", .str "")]])]

/-- The Container `dSizeMismatch` decodes to. -/
def gSizeMismatch : Gossip :=
  { gossip_id := "g1", created := "2024-01-02T03:04:05Z", topic := "T",
    source_ai := "unknown", summary := "S", key_points := [], open_questions := [],
    files := [{ name := "a", mimeType := "t", size := 999,
                encoding := "base64", data := "" }],
    continuation := "" }

/-- C3 counterexample: a Container reachable through Decode whose attachment
has `size = 999` but a payload decoding to zero bytes — `from_dict` stores
the `files` entries verbatim, so the size invariant does not hold for every
Container reachable through the public operations. -/
theorem decode_size_mismatch :
    from_dict "fresh" "now" dSizeMismatch = .ok gSizeMismatch ∧
    Reachable gSizeMismatch ∧ ¬ sizeInv gSizeMismatch := by
  refine ⟨rfl, Reachable.decode "fresh" "now" dSizeMismatch gSizeMismatch rfl, ?_⟩
  intro h
  obtain ⟨bs, hdec, hsz⟩ := h
    { name := "a", mimeType := "t", size := 999, encoding := "base64", data := "" }
    (by simp [gSizeMismatch])
  have hnil : b64decode "" = some [] := rfl
  rw [hnil] at hdec
  cases hdec
  simp at hsz

/-- C3 (amended): the size invariant holds for every Container built by
construction and `AttachFile`; `Decode` copies attachment records verbatim
and therefore does not re-establish it. -/
theorem builtByAttach_sizeInv (g : Gossip) (h : BuiltByAttach g) : sizeInv g := by
  induction h with
  | init fresh now t s sa kp oq c gid cr =>
      intro f hf
      simp [gossipInit] at hf
  | attach g n mt bs hg hbytes ih =>
      intro f hf
      simp only [add_file, List.mem_append, List.mem_singleton] at hf
      rcases hf with hf | hf
      · exact ih f hf
      · subst hf
        exact ⟨bs, b64decode_b64encode bs hbytes, rfl⟩

/-- A Container with one genuinely attached file, for the C3 witness. -/
def gAttached : Gossip :=
  add_file (gossipInit "ab12cd34ef56" "2024-01-02T03:04:05" "T" "S"
      none none none none none none)
    "a.txt" "text/plain" [65, 66, 67]

/-- C3 witness: the amended invariant evaluated on a concretely built
Container. -/
theorem builtByAttach_sizeInv_witness : BuiltByAttach gAttached ∧ sizeInv gAttached :=
  have hb : BuiltByAttach gAttached :=
    BuiltByAttach.attach _ "a.txt" "text/plain" [65, 66, 67]
      (BuiltByAttach.init "ab12cd34ef56" "2024-01-02T03:04:05" "T" "S"
        none none none none none none)
      (by decide)
  ⟨hb, builtByAttach_sizeInv gAttached hb⟩

/-! ## C8: defaults applied by construction -/

/-- C8: constructing with only `topic` and `summary` supplied (all optional
parameters at their defaults) yields `source_ai = "unknown"`, empty
`key_points` and `open_questions`, empty `continuation`, and the freshly
generated id `"gossip_" ++ freshHex`, which is non-empty. -/
theorem construct_defaults (freshHex nowIso topic summary : String) :
    (gossipInit freshHex nowIso topic summary none none none none none none).source_ai
        = "unknown" ∧
    (gossipInit freshHex nowIso topic summary none none none none none none).key_points
        = [] ∧
    (gossipInit freshHex nowIso topic summary none none none none none none).open_questions
        = [] ∧
    (gossipInit freshHex nowIso topic summary none none none none none none).continuation
        = "" ∧
    (gossipInit freshHex nowIso topic summary none none none none none none).files = [] ∧
    (gossipInit freshHex nowIso topic summary none none none none none none).gossip_id
        = "gossip_" ++ freshHex ∧
    (gossipInit freshHex nowIso topic summary none none none none none none).gossip_id
        ≠ "" ∧
    (gossipInit freshHex nowIso topic summary none none none none none none).topic
        = topic ∧
    (gossipInit freshHex nowIso topic summary none none none none none none).summary
        = summary := by
  refine ⟨rfl, rfl, rfl, rfl, rfl, rfl, ?_, rfl, rfl⟩
  show "gossip_" ++ freshHex ≠ ""
  intro hcontra
  have hlen := congrArg String.length hcontra
  rw [String.length_append] at hlen
  have h7 : "gossip_".length = 7 := rfl
  have h0 : "".length = 0 := rfl
  omega

/-! ## C2: no validation of `topic` / `summary` at construction -/

/-- C2 counterexample: constructing with an empty `topic` (or `summary`)
does **not** fail — `Gossip.__init__` contains no validation — and produces
a Container carrying the empty string. -/
theorem construct_empty_topic_produces_container :
    (gossipInit "abc123def456" "2024-01-02T03:04:05" "" "S"
        none none none none none none).topic = "" ∧
    (gossipInit "abc123def456" "2024-01-02T03:04:05" "" "S"
        none none none none none none).summary = "S" ∧
    (gossipInit "abc123def456" "2024-01-02T03:04:05" "T" ""
        none none none none none none).summary = "" ∧
    (gossipInit "abc123def456" "2024-01-02T03:04:05" "T" ""
        none none none none none none).topic = "T" := ⟨rfl, rfl, rfl, rfl⟩

/-- C2 (amended): construction never fails; for every choice of parameters,
including an empty `topic` or `summary`, it returns a Container whose
`topic` and `summary` are exactly the supplied strings. -/
theorem construct_total (freshHex nowIso topic summary : String)
    (sa : Option String) (kp oq : Option (List String)) (c gid cr : Option String) :
    (gossipInit freshHex nowIso topic summary sa kp oq c gid cr).topic = topic ∧
    (gossipInit freshHex nowIso topic summary sa kp oq c gid cr).summary = summary :=
  ⟨rfl, rfl⟩

/-! ## C5: decode errors, defaults and forward compatibility -/

/-- A Container whose key point starts with a plain space (no dash). -/
def gLeadingSpace : Gossip :=
  { gossip_id := "g1", created := "2024-01-02T03:04:05Z", topic := "T",
    source_ai := "unknown", summary := "S", key_points := [" X"],
    open_questions := [], files := [], continuation := "" }

/-- C6 counterexample: the key point `" X"` has no leading `"- "` or `"-"`
prefix, so per the claim its bullet should carry the text unchanged; but the
code's `lstrip('- ')` removes every leading dash **and space**, so the
rendered bullet is `"‚Ä¢ X"`, not `"‚Ä¢  X"`. -/
theorem bullet_strips_plain_space :
    bulletLine " X" = bulletMark ++ "X" ∧
    bulletLine " X" ≠ bulletMark ++ " X" ∧
    (bulletMark ++ "X") ∈ (to_human_lines gLeadingSpace).getD [] ∧
    (bulletMark ++ " X") ∉ (to_human_lines gLeadingSpace).getD [] := by
  refine ⟨rfl, by decide, by decide, by decide⟩

/-- Characters stripped from the front of a bullet entry. -/
def dashSpace (c : Char) : Bool := c = '-' || c = ' '

/-- The head of `dropWhile` never satisfies the dropped predicate. -/
lemma head?_dropWhile_eq_false {α : Type} (q : α → Bool) :
    ∀ (l : List α) (c : α), (l.dropWhile q).head? = some c → q c = false := by
  intro l
  induction l with
  | nil => intro c hc; simp [List.dropWhile_nil] at hc
  | cons a t ih =>
      intro c hc
      rw [List.dropWhile_cons] at hc
      by_cases hp : q a
      · rw [if_pos hp] at hc; exact ih c hc
      · rw [if_neg hp] at hc
        simp only [List.head?_cons, Option.some.injEq] at hc
        subst hc
        exact Bool.eq_false_iff.mpr hp

/-- C6 (amended): every key point and open question produces exactly one
bullet line, placed in order between the section headings, and the bullet
text is the entry with its **longest leading run of `'-'` and `' '`
characters** removed (Python `lstrip('- ')`), not merely a single `"- "`
prefix: the remainder is a suffix of the entry, everything removed was a
dash or space, and the remainder starts with neither. -/
theorem bullets_one_per_entry_lstripped :
    (∀ (g : Gossip) (ls : List String), to_human_lines g = some ls →
        ∃ cstr rest, ls = headerLines g cstr ++ g.key_points.map bulletLine ++
          questionsHeader ++ g.open_questions.map bulletLine ++ rest) ∧
    (∀ p : String, bulletLine p = bulletMark ++ pyLstripDashSpace p) ∧
    (∀ p : String, ∃ pre : List Char,
        p.data = pre ++ (pyLstripDashSpace p).data ∧
        (∀ c ∈ pre, c = '-' ∨ c = ' ') ∧
        (∀ c, (pyLstripDashSpace p).data.head? = some c → ¬(c = '-' ∨ c = ' '))) := by
  refine ⟨?_, fun _ => rfl, ?_⟩
  · intro g ls h
    cases hfi : fromisoformat (replaceZ g.created) with
    | none => rw [to_human_lines, hfi] at h; cases h
    | some dt =>
        rw [to_human_lines, hfi] at h
        cases h
        exact ⟨strftimeCreated dt,
          filesBlock g.files ++ continuationBlock g.continuation ++
            closingLines g.source_ai, by simp [List.append_assoc]⟩
  · intro p
    refine ⟨p.data.takeWhile dashSpace, ?_, ?_, ?_⟩
    · conv_lhs => rw [← List.takeWhile_append_dropWhile (p := dashSpace) (l := p.data)]
      rfl
    · intro c hc
      have := List.mem_takeWhile_imp hc
      simpa [dashSpace] using this
    · intro c hc hcontra
      have hd : (pyLstripDashSpace p).data = p.data.dropWhile dashSpace := rfl
      rw [hd] at hc
      have hfalse : dashSpace c = false := head?_dropWhile_eq_false dashSpace p.data c hc
      simp only [dashSpace, Bool.or_eq_false_iff, decide_eq_false_iff_not] at hfalse
      exact hcontra.elim hfalse.1 hfalse.2

/-- C6 witness: the bullet structure evaluated on the concrete Container
with key point `" X"`. -/
theorem bullets_one_per_entry_witness :
    ∃ cstr rest, (to_human_lines gLeadingSpace).getD [] =
      headerLines gLeadingSpace cstr ++ gLeadingSpace.key_points.map bulletLine ++
      questionsHeader ++ gLeadingSpace.open_questions.map bulletLine ++ rest :=
  bullets_one_per_entry_lstripped.1 gLeadingSpace
    ((to_human_lines gLeadingSpace).getD []) rfl

/-! ## C7: conditional sections of the human rendering -/

lemma ne_of_take2 (t s : String) (h : t.data.take 2 ≠ s.data.take 2) : t ≠ s :=
  fun he => h (congrArg (fun u => u.data.take 2) he)

lemma ne_append_of_take2 (t p x : String) (h : t.data.take 2 ≠ p.data.take 2)
    (hp : 2 ≤ p.data.length) : t ≠ p ++ x := by
  intro he
  exact h (by rw [he, String.data_append, List.take_append_of_le_length hp])

/-- A `"##"`-headed line distinct from the two header headings and from the
summary is not among the leading lines. -/
lemma not_mem_headerLines (g : Gossip) (cstr t : String)
    (h2 : t.data.take 2 = ['#', '#'])
    (hcc : t ≠ "## CONVERSATION CONTEXT")
    (hkp : t ≠ "## KEY POINTS & DECISIONS")
    (hsum : t ≠ g.summary) : t ∉ headerLines g cstr := by
  simp only [headerLines, List.mem_cons, List.not_mem_nil, or_false, not_or]
  refine ⟨ne_append_of_take2 t "# GOSSIP [ID: " _ (by rw [h2]; decide) (by decide),
    ne_of_take2 t _ (by rw [h2]; decide),
    ne_of_take2 t _ (by rw [h2]; decide),
    ne_of_take2 t _ (by rw [h2]; decide),
    ne_of_take2 t _ (by rw [h2]; decide),
    ne_of_take2 t _ (by rw [h2]; decide),
    ne_append_of_take2 t "**Topic:** " _ (by rw [h2]; decide) (by decide),
    ne_append_of_take2 t "**Source AI:** " _ (by rw [h2]; decide) (by decide),
    ne_append_of_take2 t "**Created:** " _ (by rw [h2]; decide) (by decide),
    ne_of_take2 t _ (by rw [h2]; decide),
    ne_of_take2 t _ (by rw [h2]; decide),
    hcc,
    ne_of_take2 t _ (by rw [h2]; decide),
    hsum,
    ne_of_take2 t _ (by rw [h2]; decide),
    ne_of_take2 t _ (by rw [h2]; decide),
    hkp,
    ne_of_take2 t _ (by rw [h2]; decide)⟩

/-- A `"##"`-headed line is never a bullet. -/
lemma not_mem_bullets (t : String) (h2 : t.data.take 2 = ['#', '#'])
    (ps : List String) : t ∉ ps.map bulletLine := by
  intro hmem
  obtain ⟨p, _, hp⟩ := List.mem_map.mp hmem
  exact ne_append_of_take2 t bulletMark (pyLstripDashSpace p)
    (by rw [h2]; decide) (by decide) hp.symm

/-- A `"##"`-headed line is never an attachment line. -/
lemma not_mem_fileLines (t : String) (h2 : t.data.take 2 = ['#', '#'])
    (fs : List Attach) : t ∉ fs.map fileLine := by
  intro hmem
  obtain ⟨f, _, hf⟩ := List.mem_map.mp hmem
  exact ne_append_of_take2 t bulletMark _ (by rw [h2]; decide) (by decide) hf.symm

/-- A `"##"`-headed line other than the instructions heading is not in the
closing block. -/
lemma not_mem_closingLines (t sa : String) (h2 : t.data.take 2 = ['#', '#'])
    (hins : t ≠ "## INSTRUCTIONS FOR AI SYSTEMS:") : t ∉ closingLines sa := by
  simp only [closingLines, List.mem_cons, List.not_mem_nil, or_false, not_or]
  refine ⟨ne_of_take2 t _ (by rw [h2]; decide),
    ne_of_take2 t _ (by rw [h2]; decide),
    hins,
    ne_of_take2 t _ (by rw [h2]; decide),
    ne_of_take2 t _ (by rw [h2]; decide),
    ne_of_take2 t _ (by rw [h2]; decide),
    ne_append_of_take2 t "from another AI system (" _ (by rw [h2]; decide) (by decide),
    ne_of_take2 t _ (by rw [h2]; decide),
    ne_of_take2 t _ (by rw [h2]; decide),
    ne_of_take2 t _ (by rw [h2]; decide),
    ne_of_take2 t _ (by rw [h2]; decide),
    ne_of_take2 t _ (by rw [h2]; decide),
    ne_of_take2 t _ (by rw [h2]; decide),
    ne_of_take2 t _ (by rw [h2]; decide),
    ne_of_take2 t _ (by rw [h2]; decide),
    ne_of_take2 t _ (by rw [h2]; decide),
    ne_of_take2 t _ (by rw [h2]; decide),
    ne_of_take2 t _ (by rw [h2]; decide)⟩

/-- A `"##"`-headed line other than the attached-files heading is not in the
files block. -/
lemma not_mem_filesBlock (t : String) (fs : List Attach)
    (h2 : t.data.take 2 = ['#', '#'])
    (hfa : t ≠ "## ATTACHED FILES") : t ∉ filesBlock fs := by
  intro hmem
  unfold filesBlock at hmem
  by_cases he : fs.isEmpty
  · rw [if_pos he] at hmem; cases hmem
  · rw [if_neg he] at hmem
    simp only [List.mem_append, List.mem_cons, List.not_mem_nil, or_false] at hmem
    rcases hmem with ((h | h | h | h) | h) | h | h
    · exact ne_of_take2 t "" (by rw [h2]; decide) h
    · exact ne_of_take2 t sepRule (by rw [h2]; decide) h
    · exact hfa h
    · exact ne_of_take2 t "" (by rw [h2]; decide) h
    · exact not_mem_fileLines t h2 fs h
    · exact ne_of_take2 t "" (by rw [h2]; decide) h
    · exact ne_of_take2 t _ (by rw [h2]; decide) h

/-- A `"##"`-headed line other than the continue heading and the
continuation text is not in the continuation block. -/
lemma not_mem_continuationBlock (t c : String) (h2 : t.data.take 2 = ['#', '#'])
    (hch : t ≠ "## CONTINUE FROM HERE:") (hc : t ≠ c) : t ∉ continuationBlock c := by
  unfold continuationBlock
  by_cases he : c = ""
  · simp [he]
  · rw [if_neg he]
    simp only [List.mem_cons, List.not_mem_nil, or_false, not_or]
    exact ⟨ne_of_take2 t _ (by rw [h2]; decide),
      ne_of_take2 t _ (by rw [h2]; decide),
      hch,
      ne_of_take2 t _ (by rw [h2]; decide),
      hc⟩

/-- C7: the rendered line list contains the `"## ATTACHED FILES"` heading
iff there is at least one attachment, and then one line per attachment with
its name, MIME type and KB size; contains the `"## CONTINUE FROM HERE:"`
heading iff the continuation is non-empty; and always contains the closing
instructional block, including the line naming `source_ai`.  (The summary
and continuation are inserted into the rendering verbatim, so the
hypotheses rule out the degenerate Containers whose own text is exactly one
of the two headings.) -/
theorem render_conditional_sections (g : Gossip) (ls : List String)
    (hls : to_human_lines g = some ls)
    (hs1 : g.summary ≠ "## ATTACHED FILES")
    (hs2 : g.summary ≠ "## CONTINUE FROM HERE:")
    (hc1 : g.continuation ≠ "## ATTACHED FILES") :
    (("## ATTACHED FILES" ∈ ls) ↔ g.files ≠ []) ∧
    (∀ f ∈ g.files, fileLine f ∈ ls) ∧
    (("## CONTINUE FROM HERE:" ∈ ls) ↔ g.continuation ≠ "") ∧
    "## INSTRUCTIONS FOR AI SYSTEMS:" ∈ ls ∧
    ("from another AI system (" ++ g.source_ai ++ ") that should continue") ∈ ls := by
  cases hfi : fromisoformat (replaceZ g.created) with
  | none => rw [to_human_lines, hfi] at hls; cases hls
  | some dt =>
      rw [to_human_lines, hfi] at hls
      cases hls
      refine ⟨?_, ?_, ?_, ?_, ?_⟩
      · constructor
        · intro hmem
          intro hnil
          have hempty : filesBlock g.files = [] := by simp [filesBlock, hnil]
          rw [hempty] at hmem
          simp only [List.nil_append, List.append_nil, List.mem_append] at hmem
          rcases hmem with ((((h | h) | h) | h) | h) | h
          · exact not_mem_headerLines g _ _ (by decide) (by decide) (by decide) hs1.symm h
          · exact not_mem_bullets _ (by decide) _ h
          · simp only [questionsHeader, List.mem_cons, List.not_mem_nil, or_false] at h
            rcases h with h | h | h | h <;> exact absurd h (by decide)
          · exact not_mem_bullets _ (by decide) _ h
          · exact not_mem_continuationBlock _ _ (by decide) (by decide) hc1.symm h
          · exact not_mem_closingLines _ _ (by decide) (by decide) h
        · intro hne
          have hne' : g.files.isEmpty = false := by
            cases hfs : g.files with
            | nil => exact absurd hfs hne
            | cons a l => rfl
          have hin : "## ATTACHED FILES" ∈ filesBlock g.files := by
            simp [filesBlock, hne']
          simp only [List.mem_append]
          tauto
      · intro f hf
        have hin : fileLine f ∈ filesBlock g.files := by
          have hne' : g.files.isEmpty = false := by
            cases hfs : g.files with
            | nil => rw [hfs] at hf; cases hf
            | cons a l => rfl
          unfold filesBlock
          rw [if_neg (by simp [hne'])]
          have hmap : fileLine f ∈ List.map fileLine g.files :=
            List.mem_map.mpr ⟨f, hf, rfl⟩
          simp only [List.mem_append]
          tauto
        simp only [List.mem_append]
        tauto
      · constructor
        · intro hmem
          intro hnil
          have hempty : continuationBlock g.continuation = [] := by
            simp [continuationBlock, hnil]
          rw [hempty] at hmem
          simp only [List.nil_append, List.append_nil, List.mem_append] at hmem
          rcases hmem with ((((h | h) | h) | h) | h) | h
          · exact not_mem_headerLines g _ _ (by decide) (by decide) (by decide) hs2.symm h
          · exact not_mem_bullets _ (by decide) _ h
          · simp only [questionsHeader, List.mem_cons, List.not_mem_nil, or_false] at h
            rcases h with h | h | h | h <;> exact absurd h (by decide)
          · exact not_mem_bullets _ (by decide) _ h
          · exact not_mem_filesBlock _ _ (by decide) (by decide) h
          · exact not_mem_closingLines _ _ (by decide) (by decide) h
        · intro hne
          have hin : "## CONTINUE FROM HERE:" ∈ continuationBlock g.continuation := by
            unfold continuationBlock
            rw [if_neg hne]
            simp
          simp only [List.mem_append]
          tauto
      · have hin : "## INSTRUCTIONS FOR AI SYSTEMS:" ∈ closingLines g.source_ai := by
          simp [closingLines]
        simp only [List.mem_append]
        tauto
      · have hin : ("from another AI system (" ++ g.source_ai ++ ") that should continue")
            ∈ closingLines g.source_ai := by
          simp [closingLines]
        simp only [List.mem_append]
        tauto

/-- A Container with one 1536-byte attachment and a continuation, for the
C7 witness. -/
def gSections : Gossip :=
  { gossip_id := "g1", created := "2024-01-02T03:04:05Z", topic := "T",
    source_ai := "claude", summary := "S", key_points := [], open_questions := [],
    files := [{ name := "f.bin", mimeType := "application/octet-stream",
                size := 1536, encoding := "base64", data := "" }],
    continuation := "go" }

/-- C7 witness: on a concrete Container with one 1536-byte attachment the
attached-files heading appears, the attachment line shows `"1.5 KB"`, the
continue heading appears, and the closing block names the source system. -/
theorem render_conditional_sections_witness :
    ("## ATTACHED FILES" ∈ (to_human_lines gSections).getD []) ∧
    fileLine { name := "f.bin", mimeType := "application/octet-stream",
               size := 1536, encoding := "base64", data := "" } =
      bulletMark ++ "f.bin (application/octet-stream, 1.5 KB)" ∧
    (fileLine { name := "f.bin", mimeType := "application/octet-stream",
                size := 1536, encoding := "base64", data := "" }
      ∈ (to_human_lines gSections).getD []) ∧
    ("## CONTINUE FROM HERE:" ∈ (to_human_lines gSections).getD []) ∧
    ("## INSTRUCTIONS FOR AI SYSTEMS:" ∈ (to_human_lines gSections).getD []) ∧
    (("from another AI system (" ++ "claude" ++ ") that should continue")
      ∈ (to_human_lines gSections).getD []) := by
  have h := render_conditional_sections gSections ((to_human_lines gSections).getD [])
    rfl (by decide) (by decide) (by decide)
  exact ⟨h.1.mpr (by decide), by decide,
    h.2.1 _ (by decide), h.2.2.1.mpr (by decide), h.2.2.2.1, h.2.2.2.2⟩

/-! ## C4: extraction returns the first matching attachment -/

/-- The found side of the extraction loop. -/
lemma extractGo_found (n : String) : ∀ (fs : List Attach) (f : Attach) (b : List Nat),
    fs.find? (fun a => a.name == n) = some f → b64decode f.data = some b →
    extractGo n fs = .ok b := by
  intro fs
  induction fs with
  | nil => intro f b hfind _; simp [List.find?] at hfind
  | cons a rest ih =>
      intro f b hfind hdec
      by_cases hname : a.name = n
      · rw [List.find?_cons_of_pos _ (by simp [hname])] at hfind
        cases hfind
        simp [extractGo, hname, hdec]
      · rw [List.find?_cons_of_neg _ (by simp [hname])] at hfind
        simp only [extractGo, if_neg hname]
        exact ih f b hfind hdec

/-- The not-found side of the extraction loop. -/
lemma extractGo_not_found (n : String) : ∀ fs : List Attach,
    fs.find? (fun a => a.name == n) = none → extractGo n fs = .error (.notFound n) := by
  intro fs
  induction fs with
  | nil => intro _; rfl
  | cons a rest ih =>
      intro hfind
      by_cases hname : a.name = n
      · rw [List.find?_cons_of_pos _ (by simp [hname])] at hfind
        cases hfind
      · rw [List.find?_cons_of_neg _ (by simp [hname])] at hfind
        simp only [extractGo, if_neg hname]
        exact ih hfind

/-- C4: `extract_file` returns the decoded bytes of the **first** attachment
whose name equals the argument (later same-named attachments are ignored),
and fails with the `NotFoundError`-kind error when no attachment matches. -/
theorem extract_file_first_match :
    (∀ (g : Gossip) (n : String) (f : Attach) (b : List Nat),
        g.files.find? (fun a => a.name == n) = some f →
        b64decode f.data = some b →
        extract_file g n = .ok b) ∧
    (∀ (g : Gossip) (n : String),
        g.files.find? (fun a => a.name == n) = none →
        extract_file g n = .error (.notFound n)) :=
  ⟨fun g n f b hfind hdec => extractGo_found n g.files f b hfind hdec,
   fun g n hfind => extractGo_not_found n g.files hfind⟩

/-- C4 witness: with two attachments both named `"x.txt"` carrying different
payloads (`"QQ=="` = byte `[65]`, `"Qg=="` = byte `[66]`), extraction returns
the first payload, and a missing name fails. -/
theorem extract_file_first_match_witness :
    (extract_file
      { gossip_id := "gossip_a", created := "2024-01-02T03:04:05Z", topic := "T",
        source_ai := "unknown", summary := "S", key_points := [], open_questions := [],
        files := [{ name := "x.txt", mimeType := "text/plain", size := 1,
                    encoding := "base64", data := "QQ==" },
                  { name := "x.txt", mimeType := "text/plain", size := 1,
                    encoding := "base64", data := "Qg==" }],
        continuation := "" } "x.txt" = .ok [65]) ∧
    (extract_file
      { gossip_id := "gossip_a", created := "2024-01-02T03:04:05Z", topic := "T",
        source_ai := "unknown", summary := "S", key_points := [], open_questions := [],
        files := [{ name := "x.txt", mimeType := "text/plain", size := 1,
                    encoding := "base64", data := "QQ==" },
                  { name := "x.txt", mimeType := "text/plain", size := 1,
                    encoding := "base64", data := "Qg==" }],
        continuation := "" } "missing.txt" = .error (.notFound "missing.txt")) :=
  ⟨extract_file_first_match.1 _ "x.txt"
      { name := "x.txt", mimeType := "text/plain", size := 1,
        encoding := "base64", data := "QQ==" } [65] (by decide) (by decide),
   extract_file_first_match.2 _ "missing.txt" (by decide)⟩

end GossipLib
